import Mathlib

/-!
Shallow embedding of ThreeScalePY.py (a Python 2 client library for the
3scale usage-control service) and proofs about the claims of its
specification.

Conventions of the embedding:
  - Python exceptions are modelled with `Except Exc`; a `try/except`
    block becomes a `match` on the `Except` value.
  - Python dictionaries are modelled as ordered entry sequences
    (`PyDict`); the entry order models the dict's iteration order
    (`trans.keys()` in the source).
  - Python values that can appear in a transaction record are collected
    in the `PyVal` universe.
  - External library functions (`urllib.quote`, `time.strftime`,
    `xml.etree` parsing and traversal, `urllib2.urlopen`) are modelled:
    `quote` and the XML traversal helpers are implemented following the
    library semantics the source relies on; the network call is a
    `Transport` function parameter; the XML parse step `fromstring` is
    modelled by its outcome, an `Except String Xml`.
-/

/-- Python `time.struct_time` (a 9-field tuple). -/
structure StructTime where
  tm_year : Nat
  tm_mon : Nat
  tm_mday : Nat
  tm_hour : Nat
  tm_min : Nat
  tm_sec : Nat
  tm_wday : Nat
  tm_yday : Nat
  tm_isdst : Int
deriving Repr

mutual

/-- Universe of Python values appearing as credentials, transaction
entries and report arguments in ThreeScalePY. -/
inductive PyVal where
  | str : String → PyVal
  | int : Int → PyVal
  | time : StructTime → PyVal
  | dict : PyDict → PyVal
  | list : PyList → PyVal
  | pyNone : PyVal

/-- A Python dict, as an ordered sequence of key/value entries; the
order models the dict's iteration order. -/
inductive PyDict where
  | nil : PyDict
  | cons : String → PyVal → PyDict → PyDict

/-- A Python list of `PyVal`. -/
inductive PyList where
  | nil : PyList
  | cons : PyVal → PyList → PyList

end

/-- Build a `PyDict` from a Lean association list. -/
def PyDict.ofList : List (String × PyVal) → PyDict
  | [] => .nil
  | (k, v) :: rest => .cons k v (PyDict.ofList rest)

/-- Build a `PyList` from a Lean list. -/
def PyList.ofList : List PyVal → PyList
  | [] => .nil
  | v :: rest => .cons v (PyList.ofList rest)

/-- View a `PyList` as a Lean list. -/
def PyList.toList : PyList → List PyVal
  | .nil => []
  | .cons v rest => v :: PyList.toList rest

/-- Keys of a `PyDict`, in iteration order. -/
def PyDict.keys : PyDict → List String
  | .nil => []
  | .cons k _ rest => k :: PyDict.keys rest

/-- A single-quote character, used by Python string reprs and by the
timestamp error message of the source. -/
def apos : String := String.singleton (Char.ofNat 39)

/-- Left-pad the decimal rendering of `n` with zeros to width 2. -/
def pad2 (n : Nat) : String :=
  if n < 10 then "0" ++ toString n else toString n

/-- Left-pad the decimal rendering of `n` with zeros to width 4. -/
def pad4 (n : Nat) : String :=
  if n < 10 then "000" ++ toString n
  else if n < 100 then "00" ++ toString n
  else if n < 1000 then "0" ++ toString n
  else toString n

/-- Python `time.strftime('%Y-%m-%d %H:%M:%S %z', ts)` on a
`struct_time`: zero-padded calendar fields; `%z` on a bare
`struct_time` renders the platform UTC offset, modelled as `+0000`. -/
def strftimeTs (t : StructTime) : String :=
  pad4 t.tm_year ++ "-" ++ pad2 t.tm_mon ++ "-" ++ pad2 t.tm_mday ++ " " ++
    pad2 t.tm_hour ++ ":" ++ pad2 t.tm_min ++ ":" ++ pad2 t.tm_sec ++ " +0000"

/-- Python `str(time.struct_time(...))`. -/
def structTimeStr (t : StructTime) : String :=
  "time.struct_time(tm_year=" ++ toString t.tm_year ++
    ", tm_mon=" ++ toString t.tm_mon ++
    ", tm_mday=" ++ toString t.tm_mday ++
    ", tm_hour=" ++ toString t.tm_hour ++
    ", tm_min=" ++ toString t.tm_min ++
    ", tm_sec=" ++ toString t.tm_sec ++
    ", tm_wday=" ++ toString t.tm_wday ++
    ", tm_yday=" ++ toString t.tm_yday ++
    ", tm_isdst=" ++ toString t.tm_isdst ++ ")"

mutual

/-- Python `str(v)`. -/
def pyStr : PyVal → String
  | .str s => s
  | .int n => toString n
  | .time t => structTimeStr t
  | .dict d => "\x7b" ++ pyReprEntries d ++ "\x7d"
  | .list l => "[" ++ pyReprItems l ++ "]"
  | .pyNone => "None"

/-- Python `repr(v)` (used for elements of containers by `str`). -/
def pyRepr : PyVal → String
  | .str s => apos ++ s ++ apos
  | .int n => toString n
  | .time t => structTimeStr t
  | .dict d => "\x7b" ++ pyReprEntries d ++ "\x7d"
  | .list l => "[" ++ pyReprItems l ++ "]"
  | .pyNone => "None"

/-- The comma-separated entry renderings of a dict repr. -/
def pyReprEntries : PyDict → String
  | .nil => ""
  | .cons k v .nil => apos ++ k ++ apos ++ ": " ++ pyRepr v
  | .cons k v rest => apos ++ k ++ apos ++ ": " ++ pyRepr v ++ ", " ++ pyReprEntries rest

/-- The comma-separated item renderings of a list repr. -/
def pyReprItems : PyList → String
  | .nil => ""
  | .cons v .nil => pyRepr v
  | .cons v rest => pyRepr v ++ ", " ++ pyReprItems rest

end

/-- Python truthiness test `not v` (negated): `None`, empty strings,
zero and empty containers are falsy. -/
def pyFalsy : PyVal → Bool
  | .str s => s.isEmpty
  | .int n => n == 0
  | .time _ => false
  | .dict .nil => true
  | .dict _ => false
  | .list .nil => true
  | .list _ => false
  | .pyNone => true

/-- Python iteration: `list` yields its items, `str` its characters,
`dict` its keys, `struct_time` its nine fields (it is a tuple
subclass); `int` and `None` are not iterable.  Returns `none` exactly
when `isinstance(v, collections.Iterable)` is false. -/
def pyIter : PyVal → Option (List PyVal)
  | .list l => some l.toList
  | .str s => some (s.toList.map (fun c => .str (String.singleton c)))
  | .dict d => some (d.keys.map .str)
  | .time t => some ([.int (Int.ofNat t.tm_year), .int (Int.ofNat t.tm_mon),
      .int (Int.ofNat t.tm_mday), .int (Int.ofNat t.tm_hour),
      .int (Int.ofNat t.tm_min), .int (Int.ofNat t.tm_sec),
      .int (Int.ofNat t.tm_wday), .int (Int.ofNat t.tm_yday), .int t.tm_isdst])
  | .int _ => none
  | .pyNone => none

/-- Hexadecimal digit character (uppercase), for percent-escapes. -/
def hexDigit (n : Nat) : Char :=
  if n < 10 then Char.ofNat (48 + n) else Char.ofNat (55 + n)

/-- Python 2 `urllib.quote` on one character: letters, digits, `_.-`
and the default safe character `/` pass through; every other byte
becomes an uppercase percent-escape.  (The inputs of this library are
ASCII; the model escapes by code point.) -/
def quoteChar (c : Char) : String :=
  if c.isAlphanum || c = '_' || c = '.' || c = '-' || c = '/' then
    String.singleton c
  else
    "%" ++ String.singleton (hexDigit (c.toNat / 16 % 16)) ++
      String.singleton (hexDigit (c.toNat % 16))

/-- Python 2 `urllib2.quote(s)` with the default safe set. -/
def quote (s : String) : String :=
  String.join (s.toList.map quoteChar)

/-- The exception taxonomy of ThreeScalePY, plus the raw Python
errors that can escape it: `threeScaleException` is the base class
(the spec's ValidationError/ProtocolError kind), `serverError` and
`connectionError` its subclasses, while `keyError` and
`attributeError` model unhandled built-in Python exceptions. -/
inductive Exc where
  | threeScaleException : String → Exc
  | serverError : String → Exc
  | connectionError : String → Exc
  | keyError : String → Exc
  | attributeError : String → Exc
deriving Repr, DecidableEq

/-- Is the value a `time.struct_time` (the only value the timestamp
formatter accepts in this model)? -/
def isTimeVal : PyVal → Bool
  | .time _ => true
  | _ => false

mutual

/-- One iteration of the `for key in trans.keys()` loop body of
`ThreeScaleReport.encode_recursive`: the `usage` key recurses with an
extended parameter-name position, the `timestamp` key formats the time
value (any formatting failure raises the invalid-timestamp
`ThreeScaleException`), every other key stringifies and URL-quotes the
value.  A non-dict `usage` value raises `AttributeError` from
`.keys()`. -/
def encodeEntry (pfx : String) (key : String) (v : PyVal) : Except Exc String :=
  if key = "usage" then
    match v with
    | .dict d => encode_recursive (pfx ++ "[usage]") d
    | _ => .error (.attributeError "keys")
  else if key = "timestamp" then
    match v with
    | .time t => .ok (pfx ++ "[" ++ key ++ "]=" ++ quote (strftimeTs t))
    | _ => .error (.threeScaleException
        ("Invalid timestamp " ++ apos ++ pyStr v ++ apos ++ " specified in transaction"))
  else
    .ok (pfx ++ "[" ++ key ++ "]=" ++ quote (pyStr v))

/-- `ThreeScaleReport.encode_recursive(prefix, trans)`: concatenates
the encoding of every entry of the transaction dict, in iteration
order. -/
def encode_recursive (pfx : String) : PyDict → Except Exc String
  | .nil => .ok ""
  | .cons key v rest => do
      let piece ← encodeEntry pfx key v
      let r ← encode_recursive pfx rest
      .ok (piece ++ r)

end

/-- The indexed loop of `ThreeScaleReport.encode_transactions`: each
element of the iterated sequence must be a dict (otherwise `.keys()`
raises `AttributeError`) and is encoded under the parameter-name
position `&transactions[i]`. -/
def encodeTransAux (i : Nat) : List PyVal → Except Exc String
  | [] => .ok ""
  | t :: rest =>
    match t with
    | .dict d => do
        let e ← encode_recursive ("&transactions[" ++ toString i ++ "]") d
        let r ← encodeTransAux (i + 1) rest
        .ok (e ++ r)
    | _ => .error (.attributeError "keys")

/-- `ThreeScaleReport.encode_transactions(transactions)`: a
non-iterable argument raises `ThreeScaleException("Invalid transaction
type")`; otherwise the elements are encoded in order with 0-based
indices. -/
def encode_transactions (transactions : PyVal) : Except Exc String :=
  match pyIter transactions with
  | none => .error (.threeScaleException "Invalid transaction type")
  | some ts => encodeTransAux 0 ts

/-- `ThreeScaleReport.build_post_data(transactions)`:
`"provider_key=%s%s" % (self.provider_key, encoded)`. -/
def build_post_data (provider_key : PyVal) (transactions : PyVal) : Except Exc String :=
  (encode_transactions transactions).map
    (fun e => "provider_key=" ++ pyStr provider_key ++ e)

/-- An `xml.etree` element tree node: tag, attribute dict (ordered
association list), the text before the first child, and the child
elements in document order. -/
inductive Xml where
  | mk : String → List (String × String) → Option String → List Xml → Xml

/-- Tag name of an element. -/
def Xml.tag : Xml → String
  | .mk t _ _ _ => t

/-- Attribute dict of an element. -/
def Xml.attrib : Xml → List (String × String)
  | .mk _ a _ _ => a

/-- Text content of an element (`None` when absent). -/
def Xml.text : Xml → Option String
  | .mk _ _ t _ => t

/-- Child elements of an element, in document order. -/
def Xml.children : Xml → List Xml
  | .mk _ _ _ c => c

/-- Python dict lookup `attrib[k]` as an `Option` (the caller decides
whether a miss is a `KeyError`). -/
def attribLookup (attrib : List (String × String)) (k : String) : Option String :=
  (attrib.find? (fun p => p.1 == k)).map (fun p => p.2)

/-- `elem.findtext(tag)` of `xml.etree`: the text of the first child
element with the given tag (an element without text yields the empty
string), or `None` when no child matches. -/
def findtext (x : Xml) (tag : String) : Option String :=
  (x.children.find? (fun c => c.tag == tag)).map (fun c => c.text.getD "")

/-- `elem.findall(t1 ++ "/" ++ t2)` of `xml.etree`: for every child
with tag `t1`, in document order, its children with tag `t2`, in
document order. -/
def findall2 (x : Xml) (t1 t2 : String) : List Xml :=
  (x.children.filter (fun c => c.tag == t1)).flatMap
    (fun a => a.children.filter (fun c => c.tag == t2))

/-- A decoded usage report
(`ThreeScaleAuthorizeResponseUsageReport`): `metric` and `period` come
from the element attributes, the remaining fields from child text
nodes and may be absent. -/
structure ThreeScaleAuthorizeResponseUsageReport where
  metric : String
  period : String
  start_period : Option String
  end_period : Option String
  max_value : Option String
  current_value : Option String
deriving Repr, DecidableEq

/-- A decoded authorize response (`ThreeScaleAuthorizeResponse`). -/
structure ThreeScaleAuthorizeResponse where
  plan : Option String
  reason : Option String
  usage_reports : List ThreeScaleAuthorizeResponseUsageReport
deriving Repr, DecidableEq

/-- `ThreeScaleAuthorizeResponse.add_usage_report(xml)`: the `metric`
and `period` attribute subscripts raise `KeyError` when absent (in
that order); the four child text nodes are read with `findtext` and
may be absent. -/
def ThreeScaleAuthorizeResponse.add_usage_report (x : Xml) :
    Except Exc ThreeScaleAuthorizeResponseUsageReport :=
  match attribLookup x.attrib "metric" with
  | none => .error (.keyError "metric")
  | some metric =>
    match attribLookup x.attrib "period" with
    | none => .error (.keyError "period")
    | some period =>
      .ok { metric := metric
          , period := period
          , start_period := findtext x "period_start"
          , end_period := findtext x "period_end"
          , max_value := findtext x "max_value"
          , current_value := findtext x "current_value" }

/-- The `for report in reports: resp.add_usage_report(report)` loop of
`build_auth_response`: decode in document order, propagating the first
unhandled exception. -/
def addReports : List Xml → Except Exc (List ThreeScaleAuthorizeResponseUsageReport)
  | [] => .ok []
  | x :: rest =>
    match ThreeScaleAuthorizeResponse.add_usage_report x with
    | .error e => .error e
    | .ok r =>
      match addReports rest with
      | .error e => .error e
      | .ok rs => .ok (r :: rs)

/-- `ThreeScaleAuthorize.build_auth_response()`.  The `fromstring`
parse of the stored `auth_xml` is modelled by its outcome `parsed`; a
parse exception is caught and re-raised as
`ThreeScaleException("Invalid xml ...")`.  `authorized` is the flag
stored by the preceding `authorize()` call: the `reason` text node is
read only when it is false. -/
def ThreeScaleAuthorize.build_auth_response (authorized : Bool)
    (parsed : Except String Xml) : Except Exc ThreeScaleAuthorizeResponse :=
  match parsed with
  | .error err => .error (.threeScaleException ("Invalid xml " ++ err))
  | .ok xml =>
    match addReports (findall2 xml "usage_reports" "usage_report") with
    | .error e => .error e
    | .ok reports =>
        .ok { plan := findtext xml "plan"
            , reason := if authorized then none else findtext xml "reason"
            , usage_reports := reports }

/-- `ThreeScaleAuthorizeUserKey.build_auth_response()` is textually
identical to the `ThreeScaleAuthorize` one. -/
def ThreeScaleAuthorizeUserKey.build_auth_response :
    Bool → Except String Xml → Except Exc ThreeScaleAuthorizeResponse :=
  ThreeScaleAuthorize.build_auth_response

/-- The missing-credential messages accumulated by
`ThreeScaleAuthorize.validate()`: `app_id` and `provider_key` are
checked, in that order. -/
def ThreeScaleAuthorize.validateErrs (app_id provider_key : PyVal) : List String :=
  (if pyFalsy app_id then ["App Id not defined"] else []) ++
    (if pyFalsy provider_key then ["Provider key not defined"] else [])

/-- `ThreeScaleAuthorize.validate()`: raises one `ThreeScaleException`
joining all accumulated messages with `": "` when any credential is
missing. -/
def ThreeScaleAuthorize.validate (app_id provider_key : PyVal) : Except Exc Unit :=
  match ThreeScaleAuthorize.validateErrs app_id provider_key with
  | [] => .ok ()
  | errs => .error (.threeScaleException (String.intercalate ": " errs))

/-- The missing-credential messages accumulated by
`ThreeScaleAuthorizeUserKey.validate()`: `user_key` and `provider_key`
are checked, in that order (the first message reads "User key
defined", as in the source). -/
def ThreeScaleAuthorizeUserKey.validateErrs (user_key provider_key : PyVal) : List String :=
  (if pyFalsy user_key then ["User key defined"] else []) ++
    (if pyFalsy provider_key then ["Provider key not defined"] else [])

/-- `ThreeScaleAuthorizeUserKey.validate()`: raises one
`ThreeScaleException` joining all accumulated messages with `": "`
when any credential is missing. -/
def ThreeScaleAuthorizeUserKey.validate (user_key provider_key : PyVal) : Except Exc Unit :=
  match ThreeScaleAuthorizeUserKey.validateErrs user_key provider_key with
  | [] => .ok ()
  | errs => .error (.threeScaleException (String.intercalate ": " errs))

/-- Outcome of a `urllib2.urlopen` call: a 2xx response with its body,
an `HTTPError` (non-2xx status, its status line message and its
readable body), a `URLError` (connection failure), or any other
exception. -/
inductive HttpResult where
  | success : String → HttpResult
  | httpError : Nat → String → String → HttpResult
  | urlError : String → HttpResult
  | otherError : String → HttpResult

/-- Python `str(urllib2.HTTPError)`: `"HTTP Error %s: %s"` with the
status code and message. -/
def httpErrorStr (code : Nat) (msg : String) : String :=
  "HTTP Error " ++ toString code ++ ": " ++ msg

/-- `ThreeScale.get_base_url()` with the constructor's constant
domain and protocol. -/
def get_base_url : String := "http" ++ "://" ++ "su1.3scale.net"

/-- `ThreeScale.get_auth_url()`. -/
def get_auth_url : String := get_base_url ++ "/transactions/authorize.xml"

/-- `ThreeScale.get_report_url()`. -/
def get_report_url : String := get_base_url ++ "/transactions.xml"

/-- `ThreeScaleAuthorize.authorize()`: validates the credentials, then
classifies the `urlopen` outcome.  The returned pair models the
instance state it stores: the `authorized` flag and the `auth_xml`
body kept for decoding.  An `HTTPError` with status 409 is not an
error: the flag is false and the error body is kept.  Every other
`HTTPError` raises `ThreeScaleServerError`; a `URLError` raises
`ThreeScaleConnectionError`; any other exception raises
`ThreeScaleException`. -/
def ThreeScaleAuthorize.authorize (app_id provider_key : PyVal)
    (http : HttpResult) : Except Exc (Bool × Option String) :=
  match ThreeScaleAuthorize.validate app_id provider_key with
  | .error e => .error e
  | .ok _ =>
  match http with
  | .success body => .ok (true, some body)
  | .httpError code msg body =>
      if code = 409 then .ok (false, some body)
      else .error (.serverError
        ("Invalid response for url " ++ get_auth_url ++ ": " ++ httpErrorStr code msg))
  | .urlError msg =>
      .error (.connectionError ("Connection error " ++ get_auth_url ++ ": " ++ msg))
  | .otherError msg =>
      .error (.threeScaleException ("Unknown error " ++ get_auth_url ++ ": " ++ msg))

/-- `ThreeScaleAuthorizeUserKey.authorize()`: identical to the app-id
variant except that it validates `user_key` and `provider_key`. -/
def ThreeScaleAuthorizeUserKey.authorize (user_key provider_key : PyVal)
    (http : HttpResult) : Except Exc (Bool × Option String) :=
  match ThreeScaleAuthorizeUserKey.validate user_key provider_key with
  | .error e => .error e
  | .ok _ =>
  match http with
  | .success body => .ok (true, some body)
  | .httpError code msg body =>
      if code = 409 then .ok (false, some body)
      else .error (.serverError
        ("Invalid response for url " ++ get_auth_url ++ ": " ++ httpErrorStr code msg))
  | .urlError msg =>
      .error (.connectionError ("Connection error " ++ get_auth_url ++ ": " ++ msg))
  | .otherError msg =>
      .error (.threeScaleException ("Unknown error " ++ get_auth_url ++ ": " ++ msg))

/-- `ThreeScaleReport.report(transactions)`: builds the POST body with
`build_post_data` (an encoding exception propagates before any network
interaction — there is no credential validation step), then performs
the POST and classifies the outcome.  The second component of the
result records every invocation of the transport (url, body), so that
zero-network claims are visible in the model. -/
def ThreeScaleReport.report (provider_key transactions : PyVal)
    (transport : String → String → HttpResult) :
    Except Exc Bool × List (String × String) :=
  match build_post_data provider_key transactions with
  | .error e => (.error e, [])
  | .ok data =>
    match transport get_report_url data with
    | .success _ => (.ok true, [(get_report_url, data)])
    | .httpError code msg _ =>
        (.error (.serverError
          ("Invalid response for url " ++ get_report_url ++ ": " ++ httpErrorStr code msg)),
         [(get_report_url, data)])
    | .urlError msg =>
        (.error (.connectionError ("Connection error " ++ get_report_url ++ ": " ++ msg)),
         [(get_report_url, data)])
    | .otherError msg =>
        (.error (.threeScaleException ("Unknown error " ++ get_report_url ++ ": " ++ msg)),
         [(get_report_url, data)])

/-- Does the string `pat` occur as a contiguous substring of `s`
(checked over the character lists)? -/
def listIsPrefix : List Char → List Char → Bool
  | [], _ => true
  | _ :: _, [] => false
  | a :: as, b :: bs => a == b && listIsPrefix as bs

/-- Helper for `strContains`: check `pat` at every suffix. -/
def listIsInfix (pat : List Char) : List Char → Bool
  | [] => listIsPrefix pat []
  | b :: bs => listIsPrefix pat (b :: bs) || listIsInfix pat bs

/-- Substring test used to state that an error message names a
field. -/
def strContains (s pat : String) : Bool :=
  listIsInfix pat.toList s.toList

/-- C1: for the transaction list `[dict (app_id: "a1", usage: dict
(hits: 1))]` (dict entry order as stated, modelling the iteration
order) and provider key `"pk"`, `build_post_data` composed with
`encode_transactions` and `encode_recursive` produces exactly
`provider_key=pk&transactions[0][app_id]=a1&transactions[0][usage][hits]=1`. -/
theorem build_post_data_c1_exact_string :
    build_post_data (.str "pk")
      (.list (PyList.ofList [.dict (PyDict.ofList
        [("app_id", .str "a1"), ("usage", .dict (PyDict.ofList [("hits", .int 1)]))])])) =
    .ok "provider_key=pk&transactions[0][app_id]=a1&transactions[0][usage][hits]=1" := rfl

/-- C9: for every malformed XML input (modelled by the parse outcome
being an error with the parser diagnostic), `build_auth_response` of
both authorize classes raises the base `ThreeScaleException` wrapping
the diagnostic in the `"Invalid xml %s"` message — the parser
exception never escapes unhandled. -/
theorem build_auth_response_wraps_parse_error (authorized : Bool) (diag : String) :
    ThreeScaleAuthorize.build_auth_response authorized (.error diag) =
      .error (.threeScaleException ("Invalid xml " ++ diag)) ∧
    ThreeScaleAuthorizeUserKey.build_auth_response authorized (.error diag) =
      .error (.threeScaleException ("Invalid xml " ++ diag)) :=
  ⟨rfl, rfl⟩

/-- C6 counterexample: the invalid-timestamp error message is the same
whether the offending transaction sits at index 0 or at index 1 of the
submitted sequence, so the message cannot identify the transaction
index; it only embeds the offending value. -/
theorem encode_timestamp_error_message_lacks_index :
    encode_transactions
        (.list (PyList.ofList [.dict (PyDict.ofList [("timestamp", .str "bad")])])) =
      .error (.threeScaleException
        ("Invalid timestamp " ++ apos ++ "bad" ++ apos ++ " specified in transaction")) ∧
    encode_transactions
        (.list (PyList.ofList [.dict (PyDict.ofList [("app_id", .str "a")]),
          .dict (PyDict.ofList [("timestamp", .str "bad")])])) =
      .error (.threeScaleException
        ("Invalid timestamp " ++ apos ++ "bad" ++ apos ++ " specified in transaction")) :=
  ⟨rfl, rfl⟩

/-- C6 amended: a transaction whose `timestamp` key holds a non-time
value makes the encoding fail, at any transaction index `i`, with a
`ThreeScaleException` whose message identifies the offending value by
embedding `str(value)` between single quotes; the message is
independent of the index. -/
theorem encode_timestamp_bad_value_error (i : Nat) (rest : List PyVal)
    (d : PyDict) (v : PyVal) (h : isTimeVal v = false) :
    encodeTransAux i (.dict (.cons "timestamp" v d) :: rest) =
      .error (.threeScaleException
        ("Invalid timestamp " ++ apos ++ pyStr v ++ apos ++ " specified in transaction")) := by
  cases v with
  | time t => simp [isTimeVal] at h
  | str s => rfl
  | int n => rfl
  | dict dd => rfl
  | list ll => rfl
  | pyNone => rfl

/-- C6 amended, witness: a string-valued timestamp at index 1. -/
theorem encode_timestamp_bad_value_error_witness :
    isTimeVal (.str "bad") = false ∧
    encodeTransAux 1 [.dict (.cons "timestamp" (.str "bad") .nil)] =
      .error (.threeScaleException
        ("Invalid timestamp " ++ apos ++ pyStr (.str "bad") ++ apos ++
          " specified in transaction")) :=
  ⟨rfl, encode_timestamp_bad_value_error 1 [] .nil (.str "bad") rfl⟩

/-- C7 counterexample: a report call whose credential context has no
provider key (`None`) does not fail with a validation error — the POST
body is built with the missing key stringified as `None` and the
transport is invoked with it, and the call returns success. -/
theorem report_missing_provider_key_reaches_transport :
    ThreeScaleReport.report .pyNone (.list .nil) (fun _ _ => .success "") =
      (.ok true, [(get_report_url, "provider_key=None")]) := rfl

/-- C7 amended: `ThreeScaleReport.report` performs no credential
validation: whenever the POST body builds successfully — regardless of
the provider key — the transport is invoked exactly once with that
body. -/
theorem report_always_invokes_transport (provider_key transactions : PyVal)
    (transport : String → String → HttpResult) (data : String)
    (h : build_post_data provider_key transactions = .ok data) :
    (ThreeScaleReport.report provider_key transactions transport).2 =
      [(get_report_url, data)] := by
  simp only [ThreeScaleReport.report, h]
  cases transport get_report_url data <;> rfl

/-- C7 amended, witness: the missing-provider-key call of the
counterexample indeed reaches the transport. -/
theorem report_always_invokes_transport_witness :
    build_post_data .pyNone (.list .nil) = .ok "provider_key=None" ∧
    (ThreeScaleReport.report .pyNone (.list .nil) (fun _ _ => .success "")).2 =
      [(get_report_url, "provider_key=None")] :=
  ⟨rfl, report_always_invokes_transport .pyNone (.list .nil) (fun _ _ => .success "")
    "provider_key=None" rfl⟩

/-- C8: a non-iterable `transactions` argument (any value `pyIter`
rejects, e.g. an int or `None`) makes `report` raise
`ThreeScaleException("Invalid transaction type")` during encoding, and
the recorded transport-invocation list is empty: the failure happens
before any network interaction. -/
theorem report_non_iterable_no_transport (provider_key v : PyVal)
    (transport : String → String → HttpResult) (h : pyIter v = none) :
    ThreeScaleReport.report provider_key v transport =
      (.error (.threeScaleException "Invalid transaction type"), []) := by
  unfold ThreeScaleReport.report build_post_data encode_transactions
  rw [h]
  rfl

/-- C8 witness: reporting the integer `5` raises the invalid-type
error with zero transport invocations. -/
theorem report_non_iterable_no_transport_witness :
    pyIter (.int 5) = none ∧
    ThreeScaleReport.report (.str "pk") (.int 5) (fun _ _ => .success "") =
      (.error (.threeScaleException "Invalid transaction type"), []) :=
  ⟨rfl, report_non_iterable_no_transport (.str "pk") (.int 5) (fun _ _ => .success "") rfl⟩

/-- C2: with valid credentials, on both authorize classes, an HTTP 409
outcome is not an error: `authorize()` returns normally with
`authorized = false` and the error body kept for decoding; every other
HTTP error status raises `ThreeScaleServerError` whose message carries
the status (via `str(err)`), and the call never returns normally. -/
theorem authorize_409_denied_other_status_server_error
    (app_id user_key provider_key : PyVal)
    (h1 : ThreeScaleAuthorize.validate app_id provider_key = .ok ())
    (h2 : ThreeScaleAuthorizeUserKey.validate user_key provider_key = .ok ())
    (code : Nat) (hc : code ≠ 409) (msg body : String) :
    ThreeScaleAuthorize.authorize app_id provider_key (.httpError 409 msg body) =
      .ok (false, some body) ∧
    ThreeScaleAuthorizeUserKey.authorize user_key provider_key (.httpError 409 msg body) =
      .ok (false, some body) ∧
    ThreeScaleAuthorize.authorize app_id provider_key (.httpError code msg body) =
      .error (.serverError
        ("Invalid response for url " ++ get_auth_url ++ ": " ++ httpErrorStr code msg)) ∧
    ThreeScaleAuthorizeUserKey.authorize user_key provider_key (.httpError code msg body) =
      .error (.serverError
        ("Invalid response for url " ++ get_auth_url ++ ": " ++ httpErrorStr code msg)) := by
  refine ⟨?_, ?_, ?_, ?_⟩ <;>
    simp only [ThreeScaleAuthorize.authorize, ThreeScaleAuthorizeUserKey.authorize, h1, h2] <;>
    simp [hc]

/-- C2 witness: valid credentials, a 409 outcome and a 500 outcome. -/
theorem authorize_409_denied_other_status_server_error_witness :
    ThreeScaleAuthorize.validate (.str "a") (.str "pk") = .ok () ∧
    ThreeScaleAuthorizeUserKey.validate (.str "u") (.str "pk") = .ok () ∧
    (500 : Nat) ≠ 409 ∧
    (ThreeScaleAuthorize.authorize (.str "a") (.str "pk")
        (.httpError 409 "Conflict" "denied-body") = .ok (false, some "denied-body") ∧
     ThreeScaleAuthorizeUserKey.authorize (.str "u") (.str "pk")
        (.httpError 409 "Conflict" "denied-body") = .ok (false, some "denied-body") ∧
     ThreeScaleAuthorize.authorize (.str "a") (.str "pk")
        (.httpError 500 "Conflict" "denied-body") =
       .error (.serverError
         ("Invalid response for url " ++ get_auth_url ++ ": " ++ httpErrorStr 500 "Conflict")) ∧
     ThreeScaleAuthorizeUserKey.authorize (.str "u") (.str "pk")
        (.httpError 500 "Conflict" "denied-body") =
       .error (.serverError
         ("Invalid response for url " ++ get_auth_url ++ ": " ++ httpErrorStr 500 "Conflict"))) :=
  ⟨rfl, rfl, by decide,
    authorize_409_denied_other_status_server_error (.str "a") (.str "u") (.str "pk")
      rfl rfl 500 (by decide) "Conflict" "denied-body"⟩

/-- C3: for both authorization variants, whenever any required
credential is missing (falsy), `validate()` raises a single
`ThreeScaleException` whose joined message names every missing field —
"App Id" and "Provider key" for the app-based variant, "User key" and
"Provider key" for the user-key variant — not only the first one
found. -/
theorem validate_lists_every_missing_field (app_id user_key provider_key : PyVal) :
    ((pyFalsy app_id || pyFalsy provider_key) = true →
      ∃ m, ThreeScaleAuthorize.validate app_id provider_key =
          .error (.threeScaleException m) ∧
        (pyFalsy app_id = true → strContains m "App Id" = true) ∧
        (pyFalsy provider_key = true → strContains m "Provider key" = true)) ∧
    ((pyFalsy user_key || pyFalsy provider_key) = true →
      ∃ m, ThreeScaleAuthorizeUserKey.validate user_key provider_key =
          .error (.threeScaleException m) ∧
        (pyFalsy user_key = true → strContains m "User key" = true) ∧
        (pyFalsy provider_key = true → strContains m "Provider key" = true)) := by
  constructor
  · intro h
    cases ha : pyFalsy app_id <;> cases hp : pyFalsy provider_key
    · rw [ha, hp] at h; exact absurd h (by decide)
    · refine ⟨"Provider key not defined", ?_, ?_, ?_⟩
      · unfold ThreeScaleAuthorize.validate ThreeScaleAuthorize.validateErrs
        rw [ha, hp]; rfl
      · intro hx; exact absurd hx (by decide)
      · intro _; decide
    · refine ⟨"App Id not defined", ?_, ?_, ?_⟩
      · unfold ThreeScaleAuthorize.validate ThreeScaleAuthorize.validateErrs
        rw [ha, hp]; rfl
      · intro _; decide
      · intro hx; exact absurd hx (by decide)
    · refine ⟨"App Id not defined: Provider key not defined", ?_, ?_, ?_⟩
      · unfold ThreeScaleAuthorize.validate ThreeScaleAuthorize.validateErrs
        rw [ha, hp]; rfl
      · intro _; decide
      · intro _; decide
  · intro h
    cases hu : pyFalsy user_key <;> cases hp : pyFalsy provider_key
    · rw [hu, hp] at h; exact absurd h (by decide)
    · refine ⟨"Provider key not defined", ?_, ?_, ?_⟩
      · unfold ThreeScaleAuthorizeUserKey.validate ThreeScaleAuthorizeUserKey.validateErrs
        rw [hu, hp]; rfl
      · intro hx; exact absurd hx (by decide)
      · intro _; decide
    · refine ⟨"User key defined", ?_, ?_, ?_⟩
      · unfold ThreeScaleAuthorizeUserKey.validate ThreeScaleAuthorizeUserKey.validateErrs
        rw [hu, hp]; rfl
      · intro _; decide
      · intro hx; exact absurd hx (by decide)
    · refine ⟨"User key defined: Provider key not defined", ?_, ?_, ?_⟩
      · unfold ThreeScaleAuthorizeUserKey.validate ThreeScaleAuthorizeUserKey.validateErrs
        rw [hu, hp]; rfl
      · intro _; decide
      · intro _; decide

/-- C3 witness: both credentials missing in both variants. -/
theorem validate_lists_every_missing_field_witness :
    (pyFalsy .pyNone || pyFalsy .pyNone) = true ∧
    ((pyFalsy .pyNone || pyFalsy .pyNone) = true →
      ∃ m, ThreeScaleAuthorize.validate .pyNone .pyNone =
          .error (.threeScaleException m) ∧
        (pyFalsy .pyNone = true → strContains m "App Id" = true) ∧
        (pyFalsy .pyNone = true → strContains m "Provider key" = true)) ∧
    ((pyFalsy .pyNone || pyFalsy .pyNone) = true →
      ∃ m, ThreeScaleAuthorizeUserKey.validate .pyNone .pyNone =
          .error (.threeScaleException m) ∧
        (pyFalsy .pyNone = true → strContains m "User key" = true) ∧
        (pyFalsy .pyNone = true → strContains m "Provider key" = true)) :=
  ⟨by decide, (validate_lists_every_missing_field .pyNone .pyNone .pyNone).1,
    (validate_lists_every_missing_field .pyNone .pyNone .pyNone).2⟩

/-- Modelled from the spec (4.3), for comparison with the decoder: the
usage report the spec prescribes for one element — `metric` and
`period` from the attributes, the remaining four fields from the child
text nodes, an absent child giving an absent value. -/
def specUsageReport (r : Xml) : ThreeScaleAuthorizeResponseUsageReport :=
  { metric := (attribLookup r.attrib "metric").getD ""
  , period := (attribLookup r.attrib "period").getD ""
  , start_period := findtext r "period_start"
  , end_period := findtext r "period_end"
  , max_value := findtext r "max_value"
  , current_value := findtext r "current_value" }

/-- Helper: with both attributes present, `add_usage_report` succeeds
and extracts exactly the fields the spec prescribes. -/
theorem add_usage_report_ok (r : Xml)
    (hm : (attribLookup r.attrib "metric").isSome = true)
    (hp : (attribLookup r.attrib "period").isSome = true) :
    ThreeScaleAuthorizeResponse.add_usage_report r = .ok (specUsageReport r) := by
  unfold ThreeScaleAuthorizeResponse.add_usage_report specUsageReport
  cases h1 : attribLookup r.attrib "metric" with
  | none => rw [h1] at hm; exact absurd hm (by decide)
  | some m =>
    cases h2 : attribLookup r.attrib "period" with
    | none => rw [h2] at hp; exact absurd hp (by decide)
    | some p => rfl

/-- Helper: the decode loop maps `specUsageReport` over the element
list, in order, when every element carries both attributes. -/
theorem addReports_all_ok (l : List Xml)
    (h : ∀ r ∈ l, (attribLookup r.attrib "metric").isSome = true ∧
      (attribLookup r.attrib "period").isSome = true) :
    addReports l = .ok (l.map specUsageReport) := by
  induction l with
  | nil => rfl
  | cons x rest ih =>
    have hx := h x (List.mem_cons_self x rest)
    have hrest := ih (fun r hr => h r (List.mem_cons_of_mem x hr))
    unfold addReports
    rw [add_usage_report_ok x hx.1 hx.2, hrest]
    rfl

/-- C4: for every authorization XML body whose `usage_report` elements
all carry the `metric` and `period` attributes, `build_auth_response`
returns the usage reports in server XML document order, `metric` and
`period` taken from the attributes and the four remaining fields from
the child text nodes; a missing child text node yields an absent value
rather than a fatal error (no condition on the children is needed). -/
theorem build_auth_response_document_order (authorized : Bool) (xml : Xml)
    (h : ∀ r ∈ findall2 xml "usage_reports" "usage_report",
      (attribLookup r.attrib "metric").isSome = true ∧
      (attribLookup r.attrib "period").isSome = true) :
    ThreeScaleAuthorize.build_auth_response authorized (.ok xml) =
      .ok { plan := findtext xml "plan"
          , reason := if authorized then none else findtext xml "reason"
          , usage_reports :=
              (findall2 xml "usage_reports" "usage_report").map specUsageReport } := by
  simp only [ThreeScaleAuthorize.build_auth_response]
  rw [addReports_all_ok _ h]

/-- Authorize success body used as the C4 witness: two usage reports,
the second lacking every child text node. -/
def witnessAuthXml : Xml := .mk "status" [] none
  [ Xml.mk "plan" [] (some "Pro") []
  , Xml.mk "usage_reports" [] none
      [ Xml.mk "usage_report" [("metric", "hits"), ("period", "day")] none
          [ Xml.mk "period_start" [] (some "2021-03-01 00:00:00") []
          , Xml.mk "period_end" [] (some "2021-04-01 00:00:00") []
          , Xml.mk "max_value" [] (some "100") []
          , Xml.mk "current_value" [] (some "5") [] ]
      , Xml.mk "usage_report" [("metric", "storage"), ("period", "month")] none [] ] ]

/-- C4 witness: decoding the success body with two `usage_report`
elements yields `authorized = true` (reason unset), the two reports in
document order, and absent values where the second element omits its
children. -/
theorem build_auth_response_document_order_witness :
    (∀ r ∈ findall2 witnessAuthXml "usage_reports" "usage_report",
      (attribLookup r.attrib "metric").isSome = true ∧
      (attribLookup r.attrib "period").isSome = true) ∧
    ThreeScaleAuthorize.build_auth_response true (.ok witnessAuthXml) =
      .ok { plan := some "Pro"
          , reason := none
          , usage_reports :=
              [ { metric := "hits", period := "day"
                , start_period := some "2021-03-01 00:00:00"
                , end_period := some "2021-04-01 00:00:00"
                , max_value := some "100", current_value := some "5" }
              , { metric := "storage", period := "month"
                , start_period := none, end_period := none
                , max_value := none, current_value := none } ] } := by
  refine ⟨by decide, ?_⟩
  rw [build_auth_response_document_order true witnessAuthXml (by decide)]
  rfl

/-- C5 counterexample: a call whose status was 409 (so `authorized`
was stored false and the error body kept) can still decode to a result
with `reason` unset — it suffices that the denial body has no `reason`
element.  The claim that a 409-decoded result always has `reason` set
is therefore false. -/
theorem reason_unset_on_denied_without_reason_node :
    ThreeScaleAuthorize.authorize (.str "a") (.str "pk")
        (.httpError 409 "Conflict" "body") = .ok (false, some "body") ∧
    ThreeScaleAuthorize.build_auth_response false
        (.ok (Xml.mk "status" [] none [Xml.mk "plan" [] (some "Pro") []])) =
      .ok { plan := some "Pro", reason := none, usage_reports := [] } :=
  ⟨rfl, rfl⟩

/-- C5 amended: `reason` is set only if `authorized` is false: a
result decoded after a 200 (authorized) call always has `reason`
unset, and a result decoded after a 409 (denied) call has `reason`
equal to the body's `reason` text node — set when the body contains
one, absent otherwise. -/
theorem build_auth_response_reason_setting (authorized : Bool) (xml : Xml)
    (resp : ThreeScaleAuthorizeResponse)
    (h : ThreeScaleAuthorize.build_auth_response authorized (.ok xml) = .ok resp) :
    resp.reason = if authorized then none else findtext xml "reason" := by
  simp only [ThreeScaleAuthorize.build_auth_response] at h
  cases hr : addReports (findall2 xml "usage_reports" "usage_report") with
  | error e => rw [hr] at h; exact Except.noConfusion h
  | ok rs =>
    rw [hr] at h
    have h2 : Except.ok (ε := Exc)
        { plan := findtext xml "plan"
        , reason := if authorized then none else findtext xml "reason"
        , usage_reports := rs } = Except.ok resp := h
    injection h2 with h3
    rw [← h3]

/-- C5 amended, witness: a denial body carrying a `reason` element
decodes with that reason set. -/
theorem build_auth_response_reason_setting_witness :
    ThreeScaleAuthorize.build_auth_response false
        (.ok (Xml.mk "status" [] none
          [ Xml.mk "plan" [] (some "Pro") []
          , Xml.mk "reason" [] (some "usage limits exceeded") [] ])) =
      .ok { plan := some "Pro", reason := some "usage limits exceeded"
          , usage_reports := [] } ∧
    ({ plan := some "Pro", reason := some "usage limits exceeded"
     , usage_reports := [] } : ThreeScaleAuthorizeResponse).reason =
      if false then none
      else findtext (Xml.mk "status" [] none
        [ Xml.mk "plan" [] (some "Pro") []
        , Xml.mk "reason" [] (some "usage limits exceeded") [] ]) "reason" :=
  ⟨rfl, build_auth_response_reason_setting false
    (Xml.mk "status" [] none
      [ Xml.mk "plan" [] (some "Pro") []
      , Xml.mk "reason" [] (some "usage limits exceeded") [] ]) _ rfl⟩

/-- Denial document whose only `usage_report` element lacks the
`metric` attribute, used by the C10 theorem. -/
def cexNoMetricDoc : Xml := .mk "status" [] none
  [ Xml.mk "usage_reports" [] none
      [ Xml.mk "usage_report" [("period", "day")] none [] ] ]

/-- C10: a `usage_report` element lacking the `metric` (or, with
`metric` present, the `period`) attribute makes the decoder raise an
unhandled `KeyError` naming the attribute — not a client-taxonomy
`ThreeScaleException` and not an absent value — and the error
propagates out of `build_auth_response` unwrapped; the decoder's
leniency applies only to child text nodes. -/
theorem usage_report_missing_attribute_raises_keyerror (x : Xml) :
    (attribLookup x.attrib "metric" = none →
      ThreeScaleAuthorizeResponse.add_usage_report x = .error (.keyError "metric")) ∧
    (∀ m, attribLookup x.attrib "metric" = some m →
      attribLookup x.attrib "period" = none →
      ThreeScaleAuthorizeResponse.add_usage_report x = .error (.keyError "period")) ∧
    ThreeScaleAuthorize.build_auth_response true (.ok cexNoMetricDoc) =
      .error (.keyError "metric") := by
  refine ⟨?_, ?_, rfl⟩
  · intro h
    unfold ThreeScaleAuthorizeResponse.add_usage_report
    rw [h]
  · intro m hm hp
    unfold ThreeScaleAuthorizeResponse.add_usage_report
    rw [hm, hp]

/-- C10 witness: concrete elements missing `metric`, and missing only
`period`, raise the corresponding `KeyError`. -/
theorem usage_report_missing_attribute_raises_keyerror_witness :
    (attribLookup (Xml.mk "usage_report" [("period", "day")] none []).attrib "metric" =
      none ∧
     ThreeScaleAuthorizeResponse.add_usage_report
        (Xml.mk "usage_report" [("period", "day")] none []) =
      .error (.keyError "metric")) ∧
    (attribLookup (Xml.mk "usage_report" [("metric", "hits")] none []).attrib "metric" =
      some "hits" ∧
     attribLookup (Xml.mk "usage_report" [("metric", "hits")] none []).attrib "period" =
      none ∧
     ThreeScaleAuthorizeResponse.add_usage_report
        (Xml.mk "usage_report" [("metric", "hits")] none []) =
      .error (.keyError "period")) :=
  ⟨⟨rfl, (usage_report_missing_attribute_raises_keyerror
      (Xml.mk "usage_report" [("period", "day")] none [])).1 rfl⟩,
   ⟨rfl, rfl, ((usage_report_missing_attribute_raises_keyerror
      (Xml.mk "usage_report" [("metric", "hits")] none [])).2).1 "hits" rfl rfl⟩⟩
